import Mathlib

/-!
Verification of the django-netjsonconfig controller and template-library API.

The definitions below are a shallow embedding of the repository's source:
`django_netjsonconfig/controller/views.py` (device synchronization protocol),
`django_netjsonconfig/api/generics.py` (template-library API views) and
`django_netjsonconfig/migrations/0042_device_key_none.py` (device key field
constraints).  Helpers that the views import from elsewhere in the repository
(`django_netjsonconfig/utils.py`, the Django ORM) are modelled from the spec
and carry a doc comment saying so.
-/

namespace NetJsonConfig

/-- Request parameters (Django QueryDict): an association list of
name/value pairs; `getParam` is `params.get(name)` returning `None`
when the parameter is absent. -/
abbrev Params := List (String × String)

def getParam (params : Params) (name : String) : Option String :=
  (params.find? (fun p => p.1 == name)).map (·.2)

/-- Python truthiness of an `Option String`: `None` and the empty string
are falsy, every other string is truthy. -/
def pyTruthy : Option String → Bool
  | none => false
  | some s => !(s == "")

/-- An HTTP response produced by the controller views
(`ControllerResponse` in the source is a plain `HttpResponse`). -/
structure ControllerResponse where
  status : Nat
  body : String
  contentType : String
deriving DecidableEq, Repr

/-- A stored `Config` row, restricted to the fields the controller views
read or write: primary key, shared-secret `key`, cached `checksum`,
`status`, `name`, `backend`, and the compiled configuration archive that
`download_config` serves. -/
structure Config where
  pk : String
  key : String
  checksum : String
  status : String
  name : String
  backend : String
  compiledArchive : String
deriving DecidableEq, Repr

/-- `Config.STATUS` first components: the allowed status values
(spec §3: `status` ∈ \x7bmodified, applied, error\x7d). -/
def configSTATUS : List String := ["modified", "applied", "error"]

/-- The expected-value argument of `forbid_unallowed`: the source passes
`None` (presence only), a single string (`config.key`, `SHARED_SECRET`),
or a list of allowed values (`allowed_status`, `allowed_backends`). -/
inductive Expected where
  | present
  | exact (s : String)
  | oneOf (l : List String)

def forbidden : ControllerResponse :=
  { status := 403, body := "error: forbidden", contentType := "text/plain" }

def http404 : ControllerResponse :=
  { status := 404, body := "Not Found", contentType := "text/html" }

/-- Modelled from the spec: `forbid_unallowed` lives in
`django_netjsonconfig/utils.py`, which is not among the provided sources.
Per spec §7 an AuthorizationError (missing/incorrect key or secret) is
always answered 403 with the internal detail withheld; a parameter that
is absent, empty (Python falsy) or not among the allowed values yields a
403 response, otherwise the check passes (`None`). -/
def forbid_unallowed (params : Params) (name : String) (e : Expected) :
    Option ControllerResponse :=
  match getParam params name with
  | none => some forbidden
  | some v =>
    if v = "" then some forbidden
    else
      match e with
      | .present => none
      | .exact s => if v = s then none else some forbidden
      | .oneOf l => if v ∈ l then none else some forbidden

/-- Modelled from the spec: `get_config_or_404` lives in
`django_netjsonconfig/utils.py`, not among the provided sources.  Per
spec §6 an unknown device id is answered 404; the helper returns the
`Config` with the given primary key or signals 404 (`none`). -/
def get_config_or_404 (st : List Config) (pk : String) : Option Config :=
  st.find? (fun c => c.pk == pk)

/-- Modelled from the spec: `send_config` lives in
`django_netjsonconfig/utils.py`, not among the provided sources.  Per
spec §6 a successful download is a 200 octet-stream of the compiled
archive. -/
def send_config (config : Config) : ControllerResponse :=
  { status := 200, body := config.compiledArchive
    contentType := "application/octet-stream" }

/-- `checksum` view: look the config up (404 when unknown), enforce the
`key` GET parameter against `config.key` (403 on mismatch), then return
the cached checksum as text/plain. -/
def checksum_view (st : List Config) (pk : String) (GET : Params) :
    ControllerResponse :=
  match get_config_or_404 st pk with
  | none => http404
  | some config =>
    match forbid_unallowed GET "key" (.exact config.key) with
    | some r => r
    | none => { status := 200, body := config.checksum
                contentType := "text/plain" }

/-- `download_config` view: same key enforcement, then the archive. -/
def download_config (st : List Config) (pk : String) (GET : Params) :
    ControllerResponse :=
  match get_config_or_404 st pk with
  | none => http404
  | some config =>
    match forbid_unallowed GET "key" (.exact config.key) with
    | some r => r
    | none => send_config config

/-- `report_status` view: look the config up, check the required
parameters in source order (`key` against `config.key`, then `status`
against the allowed status list), returning the first bad response; on
success store the posted status on the config and confirm. -/
def report_status (st : List Config) (pk : String) (POST : Params) :
    ControllerResponse × List Config :=
  match get_config_or_404 st pk with
  | none => (http404, st)
  | some config =>
    match forbid_unallowed POST "key" (.exact config.key) with
    | some r => (r, st)
    | none =>
      match forbid_unallowed POST "status" (.oneOf configSTATUS) with
      | some r => (r, st)
      | none =>
        let newConfig := { config with status := (getParam POST "status").getD "" }
        ({ status := 200
           body := "report-result: success\ncurrent-status: " ++ newConfig.status ++ "\n"
           contentType := "text/plain" },
         st.map (fun c => if c.pk == pk then newConfig else c))

/-- The module-level settings the controller reads
(`REGISTRATION_ENABLED`, `SHARED_SECRET`, `BACKENDS`). -/
structure Settings where
  REGISTRATION_ENABLED : Bool
  SHARED_SECRET : String
  BACKENDS : List (String × String)
deriving Repr

/-- Body of the `register` view: check `secret` against the shared
secret, `name` for presence, and `backend` against the allow-list, in
source order; on success create a new Config (with the externally
generated id and key — Django fills `pk` and the key-field default on
`objects.create`) and answer 201 with the id and key in the body. -/
def register_handler (cfg : Settings) (st : List Config) (POST : Params)
    (newId newKey : String) : ControllerResponse × List Config :=
  let allowed_backends := cfg.BACKENDS.map (·.1)
  match forbid_unallowed POST "secret" (.exact cfg.SHARED_SECRET) with
  | some r => (r, st)
  | none =>
    match forbid_unallowed POST "name" .present with
    | some r => (r, st)
    | none =>
      match forbid_unallowed POST "backend" (.oneOf allowed_backends) with
      | some r => (r, st)
      | none =>
        let config : Config :=
          { pk := newId, key := newKey, checksum := "", status := "modified"
            name := (getParam POST "name").getD ""
            backend := (getParam POST "backend").getD ""
            compiledArchive := "" }
        ({ status := 201
           body := "registration-result: success\nuuid: " ++ newId ++
                   "\nkey: " ++ newKey ++ "\n"
           contentType := "text/plain" },
         config :: st)

/-- The `register` view is only defined when `REGISTRATION_ENABLED` is
true (the whole function sits under `if REGISTRATION_ENABLED:` in the
source); when disabled the endpoint does not exist. -/
def register_endpoint (cfg : Settings) :
    Option (List Config → Params → String → String →
      ControllerResponse × List Config) :=
  if cfg.REGISTRATION_ENABLED then some (register_handler cfg) else none

/-! ## Template-library API (`api/generics.py`) -/

/-- A stored `Template` row, restricted to the fields the API views
read: primary key, `name`, `description`, `sharing` mode and the
optional secret `key`. -/
structure Template where
  pk : String
  name : String
  description : String
  sharing : String
  key : String
deriving DecidableEq, Repr

/-- A DRF `Response` from the template-detail / list views: status plus
the serialized template data (when any). -/
structure ApiResponse where
  status : Nat
  data : Option Template
deriving DecidableEq, Repr

/-- The lookup options `BaseTemplateDetailView.get` builds: it starts
from `\x7bpk, sharing: public\x7d` and, when a truthy `key` GET parameter is
present, switches to `\x7bpk, key, sharing: secret_key\x7d`. -/
def detailLookup (uuid : String) (key : Option String) : Template → Bool :=
  if pyTruthy key then
    fun t => t.pk == uuid && t.key == key.getD "" && t.sharing == "secret_key"
  else
    fun t => t.pk == uuid && t.sharing == "public"

/-- `BaseTemplateDetailView.get`: `get_object_or_404` over the lookup
options, answering 200 with the serialized template or 404. -/
def detail_get (ts : List Template) (uuid : String) (GET : Params) :
    ApiResponse :=
  match ts.find? (detailLookup uuid (getParam GET "key")) with
  | some t => { status := 200, data := some t }
  | none => { status := 404, data := none }

/-- Characters of a string, lower-cased (basic latin). -/
def lowerChars (s : String) : List Char := s.data.map Char.toLower

/-- Case-insensitive substring test (Django `__icontains`). -/
def icontains (haystack needle : String) : Bool :=
  decide (lowerChars needle <:+: lowerChars haystack)

/-- `BaseListTemplateView.get_queryset`: restrict to public templates,
then apply the `name` / `des` filters exactly as the source branches on
their (Python-truthy) presence. -/
def get_queryset (ts : List Template) (GET : Params) : List Template :=
  let name := getParam GET "name"
  let des := getParam GET "des"
  let qs := ts.filter (fun t => t.sharing == "public")
  if pyTruthy name && des == none then
    qs.filter (fun t => icontains t.name (name.getD ""))
  else if pyTruthy des && name == none then
    qs.filter (fun t => icontains t.description (des.getD ""))
  else if name != none && des != none then
    qs.filter (fun t => icontains t.description (des.getD "") &&
                        icontains t.name (name.getD ""))
  else qs

/-- Outcome of a Django `full_clean`/`save` attempt on one of the
ca/cert/vpn sub-objects of an imported vpn template, together with
whether the fallback `objects.get` of the already-stored object would
succeed.  `full_clean` itself is Django validation, external to the
repository; only its observable outcome is modelled. -/
structure SubObject where
  cleanOk : Bool
  existing : Bool
deriving DecidableEq, Repr

/-- One `try: obj.full_clean(); obj.save() except ValidationError:
obj = model.objects.get(...)` block: succeeds when validation passed or
a stored object exists; otherwise the uncaught `DoesNotExist` escapes
(modelled as `none`). -/
def resolveSubObject (o : SubObject) : Option Unit :=
  if o.cleanOk then some () else if o.existing then some () else none

/-- The remote template data `get_remote_template_data` fetched, reduced
to what decides the response: the template `type`, the three vpn
sub-objects, and the outcome of the template's own `full_clean`
(`none` = valid, `some msgs` = `ValidationError` with those messages). -/
structure RemoteTemplateData where
  type : String
  ca : SubObject
  cert : SubObject
  vpn : SubObject
  templateErrors : Option (List String)
deriving DecidableEq, Repr

/-- A DRF `Response` from `BaseCreateTemplateView.post`: status plus the
`template_errors` list of the error payload, when any. -/
structure CreateResponse where
  status : Nat
  templateErrors : Option (List String)
deriving DecidableEq, Repr

/-- `BaseCreateTemplateView.post`: for vpn-type data resolve ca, cert
and vpn in order (an unresolvable one crashes the request, `none`), then
try `save_template`; a template `ValidationError` is answered 500 with
`\x7btemplate_errors: e.messages\x7d`, success is answered 200.  Generic
templates skip the sub-objects and do the same try/except. -/
def create_template_post (data : RemoteTemplateData) : Option CreateResponse :=
  if data.type == "vpn" then
    match resolveSubObject data.ca with
    | none => none
    | some _ =>
      match resolveSubObject data.cert with
      | none => none
      | some _ =>
        match resolveSubObject data.vpn with
        | none => none
        | some _ =>
          match data.templateErrors with
          | some msgs => some { status := 500, templateErrors := some msgs }
          | none => some { status := 200, templateErrors := none }
  else
    match data.templateErrors with
    | some msgs => some { status := 500, templateErrors := some msgs }
    | none => some { status := 200, templateErrors := none }

/-- A stored `TemplateSubscription` row: template pk, subscriber URL and
the boolean subscribe flag. -/
structure TemplateSubscription where
  template : String
  subscriber : String
  subscribe : Bool
deriving DecidableEq, Repr

/-- Match on the natural key `(template, subscriber)` — the `options`
dict `BaseTemplateSubscriptionView.post` queries with. -/
def subMatches (tpk subscriber : String) (r : TemplateSubscription) : Bool :=
  r.template == tpk && r.subscriber == subscriber

/-- `BaseTemplateSubscriptionView.post`: fetch the template (an unknown
pk raises, `none`), then `objects.get` the subscription for
`(template, subscriber)` — no match means create a new record, exactly
one match means update its `subscribe` flag and save, more than one
raises `MultipleObjectsReturned` (uncaught, `none`). -/
def subscription_post (templates : List Template)
    (subs : List TemplateSubscription) (tpk subscriber : String)
    (subscribeVal : Bool) : Option (List TemplateSubscription) :=
  match templates.find? (fun t => t.pk == tpk) with
  | none => none
  | some _ =>
    match subs.filter (subMatches tpk subscriber) with
    | [] => some ({ template := tpk, subscriber := subscriber
                    subscribe := subscribeVal } :: subs)
    | [_] => some (subs.map (fun r =>
        if subMatches tpk subscriber r then { r with subscribe := subscribeVal }
        else r))
    | _ => none

/-- At most one `TemplateSubscription` record per (template, subscriber)
pair (spec §3). -/
def SubInvariant (subs : List TemplateSubscription) : Prop :=
  ∀ tpk subscriber, subs.countP (subMatches tpk subscriber) ≤ 1

/-! ## Device key constraints (`migrations/0042_device_key_none.py`) -/

/-- A stored `Device` row, restricted to identity and key. -/
structure Device where
  pk : String
  key : String
  name : String
deriving DecidableEq, Repr

/-- One character of the key regex `^[^\s/\.]+$` from migration 0042:
anything but whitespace, a slash or a dot. -/
def validKeyChar (c : Char) : Bool := !(c.isWhitespace || c == '/' || c == '.')

/-- The `KeyField` validators of migration 0042: `max_length=64` and the
regex `^[^\s/\.]+$` (at least one character, none of them whitespace,
slash or dot). -/
def keyValidates (s : String) : Bool :=
  decide (0 < s.length) && decide (s.length ≤ 64) && s.toList.all validKeyChar

/-- Modelled from the spec: the `Device` model and its save path are not
among the provided sources; migration 0042 declares the key field
validators and `unique=True`, and spec §3 says the key is unique and
matches the pattern.  Saving (creating or changing) a device runs the
field validators and the uniqueness constraint; a violating save is
rejected, an accepted save upserts the row by pk. -/
def save_device (devices : List Device) (d : Device) : Option (List Device) :=
  if keyValidates d.key &&
     devices.all (fun e => e.pk == d.pk || e.key != d.key) then
    some (d :: devices.filter (fun e => e.pk != d.pk))
  else none

/-- Every stored device key passes the field validators and keys are
pairwise distinct. -/
def DeviceKeyInvariant (devices : List Device) : Prop :=
  (∀ d ∈ devices, keyValidates d.key = true) ∧
  devices.Pairwise (fun a b => a.key ≠ b.key)

/-! ## Concrete example data (used by witnesses and counterexamples) -/

def exampleConfig : Config :=
  { pk := "1", key := "secret", checksum := "abc123", status := "modified"
    name := "dev", backend := "netjsonconfig.OpenWrt", compiledArchive := "arch" }

def exampleSettings : Settings :=
  { REGISTRATION_ENABLED := true, SHARED_SECRET := "s3cret"
    BACKENDS := [("netjsonconfig.OpenWrt", "OpenWRT"),
                 ("netjsonconfig.OpenWisp", "OpenWISP")] }

def exampleRegisterPost : Params :=
  [("secret", "s3cret"), ("name", "dev1"), ("backend", "netjsonconfig.OpenWrt")]

def publicTemplateEx : Template :=
  { pk := "11", name := "antenna", description := "wifi ap", sharing := "public"
    key := "" }

def vpnDataEx : RemoteTemplateData :=
  { type := "vpn", ca := { cleanOk := true, existing := false }
    cert := { cleanOk := true, existing := false }
    vpn := { cleanOk := false, existing := true }
    templateErrors := some ["invalid config"] }

def deviceEx : Device := { pk := "d1", key := "abc123", name := "router" }

/-! ## Helper lemmas -/

lemma forbid_unallowed_none_or_forbidden (params : Params) (name : String)
    (e : Expected) :
    forbid_unallowed params name e = none ∨
    forbid_unallowed params name e = some forbidden := by
  unfold forbid_unallowed
  cases getParam params name with
  | none => right; rfl
  | some v =>
    by_cases hv : v = ""
    · simp [hv]
    · cases e with
      | present => simp [hv]
      | exact s =>
        by_cases h : v = s
        · subst h; simp [hv]
        · simp [hv, h]
      | oneOf l => by_cases h : v ∈ l <;> simp [hv, h]

lemma forbid_unallowed_status_403 (params : Params) (name : String)
    (e : Expected) (r : ControllerResponse)
    (h : forbid_unallowed params name e = some r) : r.status = 403 := by
  rcases forbid_unallowed_none_or_forbidden params name e with h' | h' <;>
    rw [h'] at h
  · cases h
  · cases h; rfl

lemma forbid_exact_pass (params : Params) (name s : String)
    (h : getParam params name = some s) (hne : s ≠ "") :
    forbid_unallowed params name (.exact s) = none := by
  simp [forbid_unallowed, h, hne]

lemma forbid_present_pass (params : Params) (name v : String)
    (h : getParam params name = some v) (hne : v ≠ "") :
    forbid_unallowed params name .present = none := by
  simp [forbid_unallowed, h, hne]

lemma forbid_oneOf_pass (params : Params) (name v : String) (l : List String)
    (h : getParam params name = some v) (hne : v ≠ "") (hmem : v ∈ l) :
    forbid_unallowed params name (.oneOf l) = none := by
  simp [forbid_unallowed, h, hne, hmem]

lemma forbid_oneOf_reject (params : Params) (name : String) (l : List String)
    (h : ∀ s, getParam params name = some s → s ∉ l) :
    forbid_unallowed params name (.oneOf l) = some forbidden := by
  unfold forbid_unallowed
  cases hg : getParam params name with
  | none => rfl
  | some v =>
    by_cases hv : v = ""
    · simp [hv]
    · simp [hv, h v hg]

lemma forbid_exact_reject (params : Params) (name s : String)
    (h : ∀ k, getParam params name = some k → k ≠ s) :
    forbid_unallowed params name (.exact s) = some forbidden := by
  unfold forbid_unallowed
  cases hg : getParam params name with
  | none => rfl
  | some v =>
    by_cases hv : v = ""
    · simp [hv]
    · simp [hv, h v hg]

lemma detail_get_200_iff (ts : List Template) (uuid : String) (GET : Params) :
    (detail_get ts uuid GET).status = 200 ↔
      ∃ t, t ∈ ts ∧ detailLookup uuid (getParam GET "key") t = true := by
  rw [← List.find?_isSome]
  unfold detail_get
  cases ts.find? (detailLookup uuid (getParam GET "key")) <;> simp

lemma detail_get_status_cases (ts : List Template) (uuid : String)
    (GET : Params) :
    (detail_get ts uuid GET).status = 200 ∨
    (detail_get ts uuid GET).status = 404 := by
  unfold detail_get
  cases ts.find? (detailLookup uuid (getParam GET "key")) with
  | none => right; rfl
  | some t => left; rfl

lemma icontains_empty (s : String) : icontains s "" = true := by
  unfold icontains lowerChars
  rw [show ("" : String).data = [] from rfl]
  simp

/-! ## Claims -/

/-- C1 counterexample: with a wrong key an existing config id is answered 403
but a nonexistent id is answered 404, so the response status does reveal to an
unauthorized caller whether a device with a given id exists. -/
theorem checksum_leaks_existence :
    (checksum_view [exampleConfig] "1" [("key", "wrong")]).status = 403 ∧
    (checksum_view [exampleConfig] "2" [("key", "wrong")]).status = 404 ∧
    (checksum_view [exampleConfig] "1" [("key", "wrong")]).status ≠
      (checksum_view [exampleConfig] "2" [("key", "wrong")]).status := by
  decide

/-- C1 (amended): for every existing Device/Config, a checksum, download or
report-status request whose key parameter is missing or differs from the
device's key is answered 403 (and report-status leaves the store unchanged);
a request for a nonexistent id is answered 404, so the status code does
distinguish existing from nonexistent ids. -/
theorem protocol_key_enforcement (st : List Config) (pk : String)
    (GET POST : Params) (c : Config)
    (hc : get_config_or_404 st pk = some c)
    (hG : ∀ k, getParam GET "key" = some k → k ≠ c.key)
    (hP : ∀ k, getParam POST "key" = some k → k ≠ c.key) :
    (checksum_view st pk GET).status = 403 ∧
    (download_config st pk GET).status = 403 ∧
    (report_status st pk POST).1.status = 403 ∧
    (report_status st pk POST).2 = st ∧
    ∀ pk', get_config_or_404 st pk' = none →
      (checksum_view st pk' GET).status = 404 ∧
      (download_config st pk' GET).status = 404 ∧
      (report_status st pk' POST).1.status = 404 := by
  have hfG := forbid_exact_reject GET "key" c.key hG
  have hfP := forbid_exact_reject POST "key" c.key hP
  refine ⟨?_, ?_, ?_, ?_, ?_⟩
  · simp [checksum_view, hc, hfG, forbidden]
  · simp [download_config, hc, hfG, forbidden]
  · simp [report_status, hc, hfP, forbidden]
  · simp [report_status, hc, hfP]
  · intro pk' h404
    refine ⟨?_, ?_, ?_⟩
    · simp [checksum_view, h404, http404]
    · simp [download_config, h404, http404]
    · simp [report_status, h404, http404]

/-- Witness for the amended C1 at a concrete store and request. -/
theorem protocol_key_enforcement_witness :
    (checksum_view [exampleConfig] "1" [("key", "wrongkey")]).status = 403 ∧
    (download_config [exampleConfig] "1" [("key", "wrongkey")]).status = 403 ∧
    (report_status [exampleConfig] "1" [("key", "wrongkey")]).1.status = 403 ∧
    (report_status [exampleConfig] "1" [("key", "wrongkey")]).2 =
      [exampleConfig] ∧
    ∀ pk', get_config_or_404 [exampleConfig] pk' = none →
      (checksum_view [exampleConfig] pk' [("key", "wrongkey")]).status = 404 ∧
      (download_config [exampleConfig] pk' [("key", "wrongkey")]).status = 404 ∧
      (report_status [exampleConfig] pk' [("key", "wrongkey")]).1.status = 404 :=
  protocol_key_enforcement [exampleConfig] "1" [("key", "wrongkey")]
    [("key", "wrongkey")] exampleConfig rfl
    (fun k hk => by
      rw [show getParam [("key", "wrongkey")] "key" = some "wrongkey" from rfl]
        at hk
      cases hk; decide)
    (fun k hk => by
      rw [show getParam [("key", "wrongkey")] "key" = some "wrongkey" from rfl]
        at hk
      cases hk; decide)

/-- C2: a register POST carrying the correct shared secret, a name and an
allow-listed backend creates a new Config row with the freshly generated key
and answers 201 text/plain with the uuid and key in the body; the endpoint
only exists when registration is enabled. -/
theorem register_creates_config (cfg : Settings) (st : List Config)
    (POST : Params) (newId newKey n b : String)
    (hen : cfg.REGISTRATION_ENABLED = true)
    (hsec : getParam POST "secret" = some cfg.SHARED_SECRET)
    (hsne : cfg.SHARED_SECRET ≠ "")
    (hn : getParam POST "name" = some n) (hnne : n ≠ "")
    (hb : getParam POST "backend" = some b) (hbne : b ≠ "")
    (hbm : b ∈ cfg.BACKENDS.map Prod.fst) :
    (∀ cfg' : Settings, cfg'.REGISTRATION_ENABLED = false →
      register_endpoint cfg' = none) ∧
    ∃ handler, register_endpoint cfg = some handler ∧
      (handler st POST newId newKey).1.status = 201 ∧
      (handler st POST newId newKey).1.contentType = "text/plain" ∧
      (handler st POST newId newKey).1.body =
        "registration-result: success\nuuid: " ++ newId ++
        "\nkey: " ++ newKey ++ "\n" ∧
      (handler st POST newId newKey).2 =
        { pk := newId, key := newKey, checksum := "", status := "modified"
          name := n, backend := b, compiledArchive := "" } :: st := by
  refine ⟨fun cfg' h => by simp [register_endpoint, h], register_handler cfg,
    by simp [register_endpoint, hen], ?_⟩
  have h1 := forbid_exact_pass POST "secret" cfg.SHARED_SECRET hsec hsne
  have h2 := forbid_present_pass POST "name" n hn hnne
  have h3 := forbid_oneOf_pass POST "backend" b (cfg.BACKENDS.map Prod.fst)
    hb hbne hbm
  simp [register_handler, h1, h2, h3, hn, hb]

/-- Witness for C2 at concrete settings and form data. -/
theorem register_creates_config_witness :
    ∃ handler, register_endpoint exampleSettings = some handler ∧
      (handler [] exampleRegisterPost "uuid-1" "key-1").1.status = 201 ∧
      (handler [] exampleRegisterPost "uuid-1" "key-1").1.contentType =
        "text/plain" ∧
      (handler [] exampleRegisterPost "uuid-1" "key-1").1.body =
        "registration-result: success\nuuid: " ++ "uuid-1" ++
        "\nkey: " ++ "key-1" ++ "\n" ∧
      (handler [] exampleRegisterPost "uuid-1" "key-1").2 =
        { pk := "uuid-1", key := "key-1", checksum := "", status := "modified"
          name := "dev1", backend := "netjsonconfig.OpenWrt"
          compiledArchive := "" } :: [] :=
  (register_creates_config exampleSettings [] exampleRegisterPost
    "uuid-1" "key-1" "dev1" "netjsonconfig.OpenWrt"
    rfl rfl (by decide) rfl (by decide) rfl (by decide) (by decide)).2

/-- C3: a report-status POST whose status value lies outside
\x7bmodified, applied, error\x7d is answered 403 and leaves the stored configs
unchanged. -/
theorem report_status_rejects_invalid (st : List Config) (pk : String)
    (POST : Params) (c : Config)
    (hc : get_config_or_404 st pk = some c)
    (hbad : ∀ s, getParam POST "status" = some s → s ∉ configSTATUS) :
    (report_status st pk POST).1.status = 403 ∧
    (report_status st pk POST).2 = st := by
  have hst := forbid_oneOf_reject POST "status" configSTATUS hbad
  rcases forbid_unallowed_none_or_forbidden POST "key" (.exact c.key) with
    hk | hk
  · constructor <;> simp [report_status, hc, hk, hst, forbidden]
  · constructor <;> simp [report_status, hc, hk, forbidden]

/-- Witness for C3 at a concrete store and a status outside the set. -/
theorem report_status_rejects_invalid_witness :
    (report_status [exampleConfig] "1"
      [("key", "secret"), ("status", "bogus")]).1.status = 403 ∧
    (report_status [exampleConfig] "1"
      [("key", "secret"), ("status", "bogus")]).2 = [exampleConfig] :=
  report_status_rejects_invalid [exampleConfig] "1"
    [("key", "secret"), ("status", "bogus")] exampleConfig rfl
    (fun s hs => by
      rw [show getParam [("key", "secret"), ("status", "bogus")] "status" =
        some "bogus" from rfl] at hs
      cases hs; decide)

/-- C4: a report-status POST with the correct device key and an allowed
status value stores that status on the Config and answers 200 text/plain
with a confirmation whose current-status line equals the stored status. -/
theorem report_status_stores_valid (st : List Config) (pk : String)
    (POST : Params) (c : Config) (s : String)
    (hc : get_config_or_404 st pk = some c)
    (hkey : getParam POST "key" = some c.key) (hkne : c.key ≠ "")
    (hs : getParam POST "status" = some s) (hmem : s ∈ configSTATUS) :
    (report_status st pk POST).1 =
      { status := 200
        body := "report-result: success\ncurrent-status: " ++ s ++ "\n"
        contentType := "text/plain" } ∧
    (report_status st pk POST).2 =
      st.map (fun c' => if c'.pk == pk then { c with status := s } else c') ∧
    ∃ c', get_config_or_404 (report_status st pk POST).2 pk = some c' ∧
      c'.status = s := by
  have hsne : s ≠ "" := by
    have h' : s = "modified" ∨ s = "applied" ∨ s = "error" := by
      simpa [configSTATUS] using hmem
    rcases h' with rfl | rfl | rfl <;> decide
  have h1 := forbid_exact_pass POST "key" c.key hkey hkne
  have h2 := forbid_oneOf_pass POST "status" s configSTATUS hs hsne hmem
  have hcpk : (c.pk == pk) = true := by
    have := List.find?_some hc
    exact this
  have hres1 : (report_status st pk POST).1 =
      { status := 200
        body := "report-result: success\ncurrent-status: " ++ s ++ "\n"
        contentType := "text/plain" } := by
    simp [report_status, hc, h1, h2, hs]
  have hres2 : (report_status st pk POST).2 =
      st.map (fun c' => if c'.pk == pk then { c with status := s } else c') := by
    simp [report_status, hc, h1, h2, hs]
  refine ⟨hres1, hres2, { c with status := s }, ?_, rfl⟩
  rw [hres2]
  unfold get_config_or_404
  rw [List.find?_map]
  have hpred : ((fun c' : Config => c'.pk == pk) ∘
      (fun c' => if c'.pk == pk then { c with status := s } else c')) =
      (fun c' : Config => c'.pk == pk) := by
    funext x
    by_cases hx : x.pk = pk
    · simp [hx, hcpk]
    · simp [hx]
  rw [hpred]
  unfold get_config_or_404 at hc
  rw [hc, Option.map_some', if_pos hcpk]

/-- Witness for C4 at a concrete store and an allowed status. -/
theorem report_status_stores_valid_witness :
    (report_status [exampleConfig] "1"
      [("key", "secret"), ("status", "applied")]).1 =
      { status := 200
        body := "report-result: success\ncurrent-status: " ++ "applied" ++ "\n"
        contentType := "text/plain" } ∧
    (report_status [exampleConfig] "1"
      [("key", "secret"), ("status", "applied")]).2 =
      [exampleConfig].map (fun c' => if c'.pk == "1" then
        { exampleConfig with status := "applied" } else c') ∧
    ∃ c', get_config_or_404 (report_status [exampleConfig] "1"
      [("key", "secret"), ("status", "applied")]).2 "1" = some c' ∧
      c'.status = "applied" :=
  report_status_stores_valid [exampleConfig] "1"
    [("key", "secret"), ("status", "applied")] exampleConfig "applied"
    rfl rfl (by decide) rfl (by decide)

/-- C5: at most one TemplateSubscription per (template, subscriber) pair —
a subscribe/unsubscribe POST updates the existing record in place when the
pair already has one, and creates a new record only when none exists. -/
theorem subscription_upsert (templates : List Template)
    (subs : List TemplateSubscription) (tpk subscriber : String) (val : Bool)
    (hinv : SubInvariant subs)
    (htpl : (templates.find? (fun t => t.pk == tpk)).isSome = true) :
    ∃ subs', subscription_post templates subs tpk subscriber val = some subs' ∧
      SubInvariant subs' ∧
      subs'.countP (subMatches tpk subscriber) = 1 ∧
      (subs.countP (subMatches tpk subscriber) = 1 →
        subs'.length = subs.length) ∧
      (subs.countP (subMatches tpk subscriber) = 0 →
        subs'.length = subs.length + 1) := by
  rcases Option.isSome_iff_exists.mp htpl with ⟨t, ht⟩
  have hcount : (subs.filter (subMatches tpk subscriber)).length ≤ 1 := by
    rw [← List.countP_eq_length_filter]
    exact hinv tpk subscriber
  have hcountP : subs.countP (subMatches tpk subscriber) =
      (subs.filter (subMatches tpk subscriber)).length :=
    List.countP_eq_length_filter _ _
  unfold subscription_post
  rw [ht]
  cases hf : subs.filter (subMatches tpk subscriber) with
  | nil =>
    refine ⟨_, rfl, ?_, ?_, ?_, ?_⟩
    · intro t' s'
      rw [List.countP_cons]
      by_cases hm : subMatches t' s'
          { template := tpk, subscriber := subscriber, subscribe := val } = true
      · have ht2 : tpk = t' ∧ subscriber = s' := by
          simpa [subMatches] using hm
        obtain ⟨rfl, rfl⟩ := ht2
        rw [hcountP, hf]
        simp [hm]
      · rw [if_neg hm]
        simpa using hinv t' s'
    · rw [List.countP_cons, hcountP, hf]
      simp [subMatches]
    · intro h1
      rw [hcountP, hf] at h1
      simp at h1
    · intro _; simp
  | cons r rest =>
    cases rest with
    | nil =>
      have hpres : ∀ t' s', ((subMatches t' s') ∘
          (fun x : TemplateSubscription =>
          if subMatches tpk subscriber x then { x with subscribe := val }
          else x)) = subMatches t' s' := by
        intro t' s'
        funext x
        by_cases hx : subMatches tpk subscriber x = true
        · simp only [Function.comp_apply, if_pos hx]
          rfl
        · simp only [Function.comp_apply, if_neg hx]
      refine ⟨_, rfl, ?_, ?_, ?_, ?_⟩
      · intro t' s'
        rw [List.countP_map, hpres]
        exact hinv t' s'
      · rw [List.countP_map, hpres, hcountP, hf]
        rfl
      · intro _; simp
      · intro h0
        rw [hcountP, hf] at h0
        simp at h0
    | cons r2 rest2 =>
      exfalso
      rw [hf] at hcount
      simp at hcount

/-- Witness for C5: a fresh pair creates one record; re-posting the same
pair flips the flag without creating a second record. -/
theorem subscription_upsert_witness :
    ∃ subs', subscription_post [publicTemplateEx] [] "11" "http://sub" true =
        some subs' ∧
      SubInvariant subs' ∧
      subs'.countP (subMatches "11" "http://sub") = 1 ∧
      (List.countP (subMatches "11" "http://sub") [] = 1 →
        subs'.length = List.length ([] : List TemplateSubscription)) ∧
      (List.countP (subMatches "11" "http://sub") [] = 0 →
        subs'.length = List.length ([] : List TemplateSubscription) + 1) :=
  subscription_upsert [publicTemplateEx] [] "11" "http://sub" true
    (fun _ _ => by simp) (by decide)

/-- C6 counterexample: a public template's detail GET without a key returns
200, but the identical request with a key query parameter returns 404 — so
"sharing is public" alone does not imply 200, contrary to the claim. -/
theorem template_detail_public_with_key :
    publicTemplateEx.sharing = "public" ∧
    (detail_get [publicTemplateEx] "11" []).status = 200 ∧
    (detail_get [publicTemplateEx] "11" [("key", "x")]).status = 404 := by
  decide

/-- C6 (amended): a template detail GET returns 200 with the template's data
exactly when the store holds a template with the requested pk that is public
and no (truthy) key parameter was supplied, or that is secret_key-shared with
key equal to the supplied key parameter; in every other case it returns
404. -/
theorem template_detail_sharing (ts : List Template) (uuid : String)
    (GET : Params) :
    ((detail_get ts uuid GET).status = 200 ↔
      ∃ t, t ∈ ts ∧ t.pk = uuid ∧
        (if pyTruthy (getParam GET "key") then
          t.sharing = "secret_key" ∧ getParam GET "key" = some t.key
        else t.sharing = "public")) ∧
    ((detail_get ts uuid GET).status = 200 ∨
     (detail_get ts uuid GET).status = 404) := by
  refine ⟨?_, detail_get_status_cases ts uuid GET⟩
  rw [detail_get_200_iff]
  constructor
  · rintro ⟨t, ht, hl⟩
    refine ⟨t, ht, ?_⟩
    unfold detailLookup at hl
    by_cases hk : pyTruthy (getParam GET "key") = true
    · rw [if_pos hk] at hl
      simp only [Bool.and_eq_true, beq_iff_eq] at hl
      obtain ⟨⟨hpk, hkey⟩, hsh⟩ := hl
      refine ⟨hpk, ?_⟩
      rw [if_pos hk]
      refine ⟨hsh, ?_⟩
      cases hg : getParam GET "key" with
      | none => rw [hg] at hk; cases hk
      | some k =>
        rw [hg] at hkey
        have hx : t.key = k := by simpa using hkey
        rw [hx]
    · rw [if_neg hk] at hl
      simp only [Bool.and_eq_true, beq_iff_eq] at hl
      rw [if_neg hk]
      exact ⟨hl.1, hl.2⟩
  · rintro ⟨t, ht, hpk, hcond⟩
    refine ⟨t, ht, ?_⟩
    unfold detailLookup
    by_cases hk : pyTruthy (getParam GET "key") = true
    · rw [if_pos hk] at hcond
      rw [if_pos hk]
      obtain ⟨hsh, hkey⟩ := hcond
      cases hg : getParam GET "key" with
      | none => rw [hg] at hk; cases hk
      | some k =>
        rw [hg] at hkey
        have hx : k = t.key := by simpa using hkey
        simp [hpk, hsh, hx]
    · rw [if_neg hk] at hcond
      rw [if_neg hk]
      simp [hpk, hcond]

/-- C10: for a public template, a detail GET with any non-empty key query
parameter returns 404 (a supplied key restricts the lookup to
secret_key-shared templates), while the identical request without the key
returns 200. -/
theorem public_template_key_restricts (ts : List Template) (t : Template)
    (k : String) (ht : t ∈ ts) (hpub : t.sharing = "public") (hk : k ≠ "")
    (huniq : ∀ u ∈ ts, u.pk = t.pk → u = t) :
    (detail_get ts t.pk [("key", k)]).status = 404 ∧
    (detail_get ts t.pk []).status = 200 := by
  have htruthy : pyTruthy (getParam [("key", k)] "key") = true := by
    rw [show getParam [("key", k)] "key" = some k from rfl]
    simp [pyTruthy, hk]
  constructor
  · rcases detail_get_status_cases ts t.pk [("key", k)] with h200 | h404
    · exfalso
      rcases (detail_get_200_iff ts t.pk [("key", k)]).mp h200 with ⟨u, hu, hl⟩
      unfold detailLookup at hl
      rw [if_pos htruthy] at hl
      simp only [Bool.and_eq_true, beq_iff_eq] at hl
      have hut : u = t := huniq u hu hl.1.1
      rw [hut, hpub] at hl
      exact absurd hl.2 (by decide)
    · exact h404
  · rw [detail_get_200_iff]
    refine ⟨t, ht, ?_⟩
    unfold detailLookup
    rw [show getParam ([] : Params) "key" = none from rfl]
    simp [pyTruthy, hpub]

/-- Witness for C10 at a concrete public template. -/
theorem public_template_key_restricts_witness :
    (detail_get [publicTemplateEx] publicTemplateEx.pk
      [("key", "zz")]).status = 404 ∧
    (detail_get [publicTemplateEx] publicTemplateEx.pk []).status = 200 :=
  public_template_key_restricts [publicTemplateEx] publicTemplateEx "zz"
    (List.mem_singleton.mpr rfl) rfl (by decide)
    (fun u hu _ => List.mem_singleton.mp hu)

/-- C7: the template list contains exactly the public templates, restricted
to those whose name contains the name filter (case-insensitively) when one
is given, to those whose description contains the des filter when one is
given, and to both restrictions when both are given. -/
theorem list_public_templates (ts : List Template) (GET : Params)
    (t : Template) :
    t ∈ get_queryset ts GET ↔
      t ∈ ts ∧ t.sharing = "public" ∧
      (∀ n, getParam GET "name" = some n → icontains t.name n = true) ∧
      (∀ d, getParam GET "des" = some d → icontains t.description d = true) := by
  unfold get_queryset
  rcases hname : getParam GET "name" with _ | n <;>
    rcases hdes : getParam GET "des" with _ | d
  · simp [hname, hdes, pyTruthy, List.mem_filter, and_assoc]
  · by_cases hd : d = ""
    · subst hd
      simp [hname, hdes, pyTruthy, List.mem_filter, icontains_empty, and_assoc]
    · simp [hname, hdes, pyTruthy, hd, List.mem_filter, and_assoc]
      tauto
  · by_cases hn : n = ""
    · subst hn
      simp [hname, hdes, pyTruthy, List.mem_filter, icontains_empty, and_assoc]
    · simp [hname, hdes, pyTruthy, hn, List.mem_filter, and_assoc]
      tauto
  · simp only [hname, hdes, pyTruthy]
    simp [List.mem_filter, and_assoc, Bool.and_eq_true, and_comm]

/-- C8: a create-external-template POST is answered 200 when the fetched
template data validates and saves, and 500 with the validation messages in
template_errors when template validation fails — for vpn-type and generic
templates alike (provided the vpn sub-objects resolve, otherwise the
request crashes before reaching the template save). -/
theorem create_template_response (data : RemoteTemplateData)
    (hres : data.type = "vpn" →
      resolveSubObject data.ca = some () ∧
      resolveSubObject data.cert = some () ∧
      resolveSubObject data.vpn = some ()) :
    (data.templateErrors = none →
      create_template_post data =
        some { status := 200, templateErrors := none }) ∧
    ∀ msgs, data.templateErrors = some msgs →
      create_template_post data =
        some { status := 500, templateErrors := some msgs } := by
  by_cases ht : data.type = "vpn"
  · obtain ⟨h1, h2, h3⟩ := hres ht
    constructor
    · intro he; simp [create_template_post, ht, h1, h2, h3, he]
    · intro msgs he; simp [create_template_post, ht, h1, h2, h3, he]
  · constructor
    · intro he; simp [create_template_post, ht, he]
    · intro msgs he; simp [create_template_post, ht, he]

/-- Witness for C8: a vpn-type import whose template fails validation is
answered 500 carrying the validation messages verbatim. -/
theorem create_template_response_witness :
    create_template_post vpnDataEx =
      some { status := 500, templateErrors := some ["invalid config"] } :=
  (create_template_response vpnDataEx (fun _ => by decide)).2
    ["invalid config"] rfl

/-- C9: a successful device save (creation or change) preserves the key
invariant: every stored key passes the migration-0042 validators
(non-empty, at most 64 characters, no whitespace, dot or slash) and keys
are unique across devices; the saved device's key itself validates. -/
theorem device_key_invariant_preserved (devices devices' : List Device)
    (d : Device) (hinv : DeviceKeyInvariant devices)
    (hs : save_device devices d = some devices') :
    DeviceKeyInvariant devices' ∧ d ∈ devices' ∧
      keyValidates d.key = true := by
  unfold save_device at hs
  by_cases hcond : (keyValidates d.key &&
      devices.all (fun e => e.pk == d.pk || e.key != d.key)) = true
  · rw [if_pos hcond] at hs
    simp only [Bool.and_eq_true] at hcond
    obtain ⟨hvalid, hall⟩ := hcond
    cases hs
    refine ⟨⟨?_, ?_⟩, List.mem_cons_self _ _, hvalid⟩
    · intro e he
      rcases List.mem_cons.mp he with rfl | he'
      · exact hvalid
      · exact hinv.1 e (List.mem_filter.mp he').1
    · rw [List.pairwise_cons]
      refine ⟨?_, hinv.2.filter _⟩
      intro e he'
      obtain ⟨hmem, hpk⟩ := List.mem_filter.mp he'
      have halle := List.all_eq_true.mp hall e hmem
      simp only [Bool.or_eq_true] at halle
      rcases halle with h | h
      · exfalso
        rw [bne_iff_ne] at hpk
        exact hpk (beq_iff_eq.mp h)
      · intro hdk
        rw [bne_iff_ne] at h
        exact h hdk.symm
  · rw [if_neg hcond] at hs
    cases hs

/-- Witness for C9: saving a valid device into an empty store yields a
store satisfying the key invariant. -/
theorem device_key_invariant_preserved_witness :
    DeviceKeyInvariant [deviceEx] ∧ deviceEx ∈ [deviceEx] ∧
      keyValidates deviceEx.key = true :=
  device_key_invariant_preserved [] [deviceEx] deviceEx
    ⟨fun d h => absurd h (List.not_mem_nil d), List.Pairwise.nil⟩ (by decide)

end NetJsonConfig
